import Mathlib

/-!
Verification development for the cargo-dimension scaffolding tool.

The embedding follows the source files under src/:
  - src/common.rs : the dependency registry (four Lazy statics) and the
    PATCH_SECTION override-block renderer;
  - src/main.rs : argument resolution into DimensionOverrides and the
    orchestration in main();
  - src/rust_toolchain.rs : emission of the rust-toolchain pin file.
The manifest-composing modules (contract_package.rs, tests_package.rs,
dependency.rs) are referenced by main.rs but their sources are absent;
where a property needs them they are modelled from the spec, and each such
definition says so in its doc comment.
-/

namespace CargoDimension

/-- Embeds struct Dependency from dependency.rs: an immutable name/version
pair. The struct itself is not under src/, but its two accessors name() and
version() are used by common.rs; a plain record captures it. -/
structure Dependency where
  name : String
  version : String
deriving DecidableEq, Repr

/-- Embeds the Lazy static CL_CONTRACT in src/common.rs. -/
def CL_CONTRACT : Dependency := ⟨"dimension-contract", "1.4.3"⟩

/-- Embeds the Lazy static CL_TYPES in src/common.rs. -/
def CL_TYPES : Dependency := ⟨"dimension-types", "1.4.6"⟩

/-- Embeds the Lazy static CL_ENGINE_TEST_SUPPORT in src/common.rs. -/
def CL_ENGINE_TEST_SUPPORT : Dependency := ⟨"dimension-engine-test-support", "2.0.3"⟩

/-- Embeds the Lazy static CL_EXECUTION_ENGINE in src/common.rs. -/
def CL_EXECUTION_ENGINE : Dependency := ⟨"dimension-execution-engine", "1.4.4"⟩

/-- The dependency registry: the four statics in the order src/common.rs
declares them (lines 8-14). -/
def registry : List Dependency :=
  [CL_CONTRACT, CL_TYPES, CL_ENGINE_TEST_SUPPORT, CL_EXECUTION_ENGINE]

/-- The registry's dependency names in registry (declaration) order. -/
def registryNames : List String := registry.map Dependency.name

/-- Embeds enum DimensionOverrides from src/main.rs: the resolved override
selection. Paths, urls and branches are strings (PathBuf display form). -/
inductive DimensionOverrides where
  | WorkspacePath (path : String)
  | GitRepo (url : String) (branch : String)
deriving DecidableEq, Repr

/-- Embeds the Lazy static PATCH_SECTION from src/common.rs, as a function of
the resolved override selection (ARGS.dimension_overrides()). The literal
text reproduces the two format! templates byte for byte; braces of the
rendered TOML inline tables are written with hex escapes. -/
def patchSection : Option DimensionOverrides → String
  | some (.WorkspacePath path) =>
    "[patch.crates-io]\n" ++
    "dimension-contract" ++ " = " ++ "\x7b path = \"" ++ path ++
      "/smart_contracts/contract" ++ "\" \x7d" ++ "\n" ++
    "dimension-engine-test-support" ++ " = " ++ "\x7b path = \"" ++ path ++
      "/execution_engine_testing/test_support" ++ "\" \x7d" ++ "\n" ++
    "dimension-execution-engine" ++ " = " ++ "\x7b path = \"" ++ path ++
      "/execution_engine" ++ "\" \x7d" ++ "\n" ++
    "dimension-types" ++ " = " ++ "\x7b path = \"" ++ path ++
      "/types" ++ "\" \x7d" ++ "\n"
  | some (.GitRepo url branch) =>
    "[patch.crates-io]\n" ++
    "dimension-contract" ++ " = " ++ "\x7b git = \"" ++ url ++
      "\", branch = \"" ++ branch ++ "\" \x7d" ++ "\n" ++
    "dimension-engine-test-support" ++ " = " ++ "\x7b git = \"" ++ url ++
      "\", branch = \"" ++ branch ++ "\" \x7d" ++ "\n" ++
    "dimension-execution-engine" ++ " = " ++ "\x7b git = \"" ++ url ++
      "\", branch = \"" ++ branch ++ "\" \x7d" ++ "\n" ++
    "dimension-types" ++ " = " ++ "\x7b git = \"" ++ url ++
      "\", branch = \"" ++ branch ++ "\" \x7d" ++ "\n"
  | none => ""

/-- The source text of one local-path override entry: the inline table
rendered for a given joined sub-path. -/
def pathEntry (sub : String) : String := "\x7b path = \"" ++ sub ++ "\" \x7d"

/-- The source text of one git override entry for a url/branch pair. -/
def gitEntry (url branch : String) : String :=
  "\x7b git = \"" ++ url ++ "\", branch = \"" ++ branch ++ "\" \x7d"

/-- Structural view of the override block: the (dependency name, source text)
pairs of the declaration lines, in the order the PATCH_SECTION templates in
src/common.rs emit them. -/
def patchEntries : DimensionOverrides → List (String × String)
  | .WorkspacePath p =>
    [("dimension-contract", pathEntry (p ++ "/smart_contracts/contract")),
     ("dimension-engine-test-support", pathEntry (p ++ "/execution_engine_testing/test_support")),
     ("dimension-execution-engine", pathEntry (p ++ "/execution_engine")),
     ("dimension-types", pathEntry (p ++ "/types"))]
  | .GitRepo u b =>
    [("dimension-contract", gitEntry u b),
     ("dimension-engine-test-support", gitEntry u b),
     ("dimension-execution-engine", gitEntry u b),
     ("dimension-types", gitEntry u b)]

/-- One declaration line of the override block, newline terminated. -/
def renderLine (e : String × String) : String := e.1 ++ " = " ++ e.2 ++ "\n"

/-- The dependency names of the override block's declaration lines. -/
def patchNames (o : DimensionOverrides) : List String := (patchEntries o).map Prod.fst

/-- The override-block header line of both PATCH_SECTION templates. -/
def patchHeader : String := "[patch.crates-io]\n"

/-- The panic message of the unreachable catch-all arm in Args::new. -/
def unreachableMessage : String :=
  "Clap rules enforce either both or neither git args are present"

/-- Embeds the match in Args::new (src/main.rs lines 122-130) resolving the
three optional hidden arguments into the override selection. The
catch-all arm is the unreachable! panic, modelled as an error value carrying
the panic message. -/
def resolveOverrides :
    Option String → Option String → Option String →
    Except String (Option DimensionOverrides)
  | some path, none, none => .ok (some (.WorkspacePath path))
  | none, some url, some branch => .ok (some (.GitRepo url branch))
  | none, none, none => .ok none
  | _, _, _ => .error unreachableMessage

/-- Modelled from the spec: contract_package.rs is not under src/. Per the
spec the contract-package manifest declares the contract-interface, types and
execution-engine libraries, with name/version taken from the registry
statics. -/
def contractDeps : List Dependency := [CL_CONTRACT, CL_TYPES, CL_EXECUTION_ENGINE]

/-- Modelled from the spec: tests_package.rs is not under src/. Per the spec
the tests-package manifest declares all four shared libraries, including
test-support, with name/version taken from the registry statics. -/
def testsDeps : List Dependency :=
  [CL_CONTRACT, CL_TYPES, CL_ENGINE_TEST_SUPPORT, CL_EXECUTION_ENGINE]

/-- Modelled from the spec: one dependency-declaration line of a manifest,
using the registered name and version of the dependency. -/
def depLine (d : Dependency) : String := d.name ++ " = \"" ++ d.version ++ "\"\n"

/-- Modelled from the spec: the manifest composer. It emits the identity
section, then one declaration line per needed dependency, then the override
block verbatim if non-empty, otherwise nothing extra. -/
def composeManifest (identity : String) (deps : List Dependency)
    (sel : Option DimensionOverrides) : String :=
  identity ++ String.join (deps.map depLine) ++ patchSection sel

/-- The dependency names a manifest's declaration block lists. -/
def declaredNames (deps : List Dependency) : List String := deps.map Dependency.name

/-- An abstract filesystem: the directories that exist and the files that
exist with their contents. -/
structure FsState where
  dirs : List String
  files : List (String × String)
deriving Repr, DecidableEq

/-- A path exists when it is a directory or a file (Path::exists in main.rs). -/
def pathExists (fs : FsState) (p : String) : Bool :=
  fs.dirs.contains p || (fs.files.map Prod.fst).contains p

/-- Modelled from the spec: the identity section of the contract-package
manifest (contract_package.rs is absent from src/). -/
def contractIdentity : String := "[package]\nname = \"contract\"\nversion = \"0.1.0\"\n"

/-- Modelled from the spec: the identity section of the tests-package
manifest (tests_package.rs is absent from src/). -/
def testsIdentity : String := "[package]\nname = \"tests\"\nversion = \"0.1.0\"\n"

/-- Modelled from the spec: the near-static contents of the three auxiliary
files (toolchain pin, build-automation file, CI config); their template text
lives in resource files absent from src/ and no claim depends on it. -/
def auxContents : String := ""

/-- Modelled from the spec: the files a successful run writes under the
destination root, with contents. rust-toolchain is written by
src/rust_toolchain.rs; the manifests and aux files come from modules absent
from src/, named after main.rs's calls, composed per the spec. -/
def writtenFiles (root : String) (sel : Option DimensionOverrides) :
    List (String × String) :=
  [(root ++ "/contract/Cargo.toml", composeManifest contractIdentity contractDeps sel),
   (root ++ "/tests/Cargo.toml", composeManifest testsIdentity testsDeps sel),
   (root ++ "/rust-toolchain", auxContents),
   (root ++ "/Makefile", auxContents),
   (root ++ "/.travis.yml", auxContents)]

/-- Embeds main() from src/main.rs: if the destination root already exists
the run aborts with the error message and mutates nothing; otherwise the
destination directory is created and the files are written under it. -/
def run (fs : FsState) (root : String) (sel : Option DimensionOverrides) :
    Except String FsState :=
  if pathExists fs root then
    .error (": destination '" ++ root ++ "' already exists")
  else
    .ok ⟨fs.dirs ++ [root], fs.files ++ writtenFiles root sel⟩

/-- The flat string render agrees with the structural view: for a present
selection, PATCH_SECTION is the header followed by exactly the rendered
declaration lines of patchEntries, in order, with nothing after the final
newline. -/
theorem patchSection_eq_entries (o : DimensionOverrides) :
    patchSection (some o) = patchHeader ++ String.join ((patchEntries o).map renderLine) := by
  cases o <;>
    simp only [patchSection, patchEntries, renderLine, patchHeader, pathEntry, gitEntry,
      String.join, List.map, List.foldl, String.append_assoc, String.empty_append,
      String.append_empty]

/-- Whatever the selection carries, the names on the override block's
declaration lines are the same fixed four, in the same fixed order. -/
theorem patchNames_eq (o : DimensionOverrides) :
    patchNames o = ["dimension-contract", "dimension-engine-test-support",
      "dimension-execution-engine", "dimension-types"] := by
  cases o <;> rfl

/-- C1: any dependency name declared by both the contract manifest and the
tests manifest carries a byte-identical version string in both, because both
declaration blocks draw each descriptor from the single registry of four
statics; the rendered declaration lines are then also byte-identical. -/
theorem shared_dependency_versions_agree :
    ∀ d₁ ∈ contractDeps, ∀ d₂ ∈ testsDeps,
      d₁.name = d₂.name → d₁.version = d₂.version ∧ depLine d₁ = depLine d₂ := by
  intro d₁ h₁ d₂ h₂ hname
  fin_cases h₁ <;> fin_cases h₂ <;>
    simp_all [contractDeps, testsDeps, depLine,
      CL_CONTRACT, CL_TYPES, CL_ENGINE_TEST_SUPPORT, CL_EXECUTION_ENGINE]

/-- Witness for C1 at the shared contract-interface dependency. -/
theorem shared_dependency_versions_agree_witness :
    CL_CONTRACT ∈ contractDeps ∧ CL_CONTRACT ∈ testsDeps ∧
      CL_CONTRACT.version = CL_CONTRACT.version ∧ depLine CL_CONTRACT = depLine CL_CONTRACT :=
  ⟨by decide, by decide,
    shared_dependency_versions_agree CL_CONTRACT (by decide) CL_CONTRACT (by decide) rfl⟩

/-- C2 counterexample: with selection LocalPath("/work"), the override block
appended to the contract manifest names dimension-engine-test-support, a
dependency absent from the contract manifest's declaration block, so the two
name sets are not equal. -/
theorem contract_override_names_not_declared :
    "dimension-engine-test-support" ∈ patchNames (.WorkspacePath "/work") ∧
      "dimension-engine-test-support" ∉ declaredNames contractDeps := by
  decide

/-- C2 amended: for selection LocalPath(p) the override block (shared by both
manifests) contains exactly one entry per registry dependency — all four — so
its name set equals the tests manifest's declared set, and strictly contains
the contract manifest's three declared names, the extra name being
dimension-engine-test-support. -/
theorem local_override_names_cover_registry :
    ∀ p : String,
      (patchNames (.WorkspacePath p)).Perm (declaredNames testsDeps) ∧
      (∀ n ∈ declaredNames contractDeps, n ∈ patchNames (.WorkspacePath p)) ∧
      "dimension-engine-test-support" ∈ patchNames (.WorkspacePath p) ∧
      "dimension-engine-test-support" ∉ declaredNames contractDeps := by
  intro p
  rw [patchNames_eq]
  refine ⟨by decide, ?_, by decide, by decide⟩
  intro n hn
  fin_cases hn <;> decide

/-- Witness for C2 amended at p = "/work", n = "dimension-types". -/
theorem local_override_names_cover_registry_witness :
    "dimension-types" ∈ declaredNames contractDeps ∧
      "dimension-types" ∈ patchNames (.WorkspacePath "/work") :=
  ⟨by decide,
    (local_override_names_cover_registry "/work").2.1 "dimension-types" (by decide)⟩

/-- C3 counterexample: at selection LocalPath("/work") the declaration lines
of the override block are not in registry order — the registry declares
(contract, types, engine-test-support, execution-engine) while the block
emits (contract, engine-test-support, execution-engine, types). -/
theorem patch_lines_not_registry_order :
    patchNames (.WorkspacePath "/work") ≠ registryNames := by
  decide

/-- C3 amended: for any present selection the rendered override block is the
single header line followed by exactly one declaration line per registry
dependency and nothing after the last line's newline, the lines being in the
fixed alphabetical name order (contract, engine-test-support,
execution-engine, types) rather than registry-declaration order. -/
theorem patch_block_shape :
    ∀ o : DimensionOverrides,
      patchSection (some o) = patchHeader ++ String.join ((patchEntries o).map renderLine) ∧
      patchNames o = ["dimension-contract", "dimension-engine-test-support",
        "dimension-execution-engine", "dimension-types"] ∧
      (patchNames o).Perm registryNames := by
  intro o
  rw [patchNames_eq]
  exact ⟨patchSection_eq_entries o, rfl, by decide⟩

/-- C4: the resolver maps (local, none, none) to LocalPath, (none, url,
branch) to RemoteBranch, and (none, none, none) to no override, exactly as
Args::new's match does. -/
theorem resolveOverrides_three_cases :
    (∀ p, resolveOverrides (some p) none none = .ok (some (.WorkspacePath p))) ∧
    (∀ u b, resolveOverrides none (some u) (some b) = .ok (some (.GitRepo u b))) ∧
    resolveOverrides none none none = .ok none :=
  ⟨fun _ => rfl, fun _ _ => rfl, rfl⟩

/-- C5: with selection RemoteBranch(u, b), the override block is the header
plus its declaration lines, and every entry's source text is exactly the git
table naming u and b — the same url/branch pair on every line. -/
theorem git_override_entries_uniform :
    ∀ u b : String,
      patchSection (some (.GitRepo u b)) =
        patchHeader ++ String.join ((patchEntries (.GitRepo u b)).map renderLine) ∧
      ∀ e ∈ patchEntries (.GitRepo u b), e.2 = gitEntry u b := by
  intro u b
  refine ⟨patchSection_eq_entries _, ?_⟩
  intro e he
  fin_cases he <;> rfl

/-- Witness for C5 at a concrete url/branch and the dimension-types entry. -/
theorem git_override_entries_uniform_witness :
    ("dimension-types", gitEntry "https://example.com/node" "dev") ∈
        patchEntries (.GitRepo "https://example.com/node" "dev") ∧
      ("dimension-types", gitEntry "https://example.com/node" "dev").2 =
        gitEntry "https://example.com/node" "dev" :=
  ⟨by decide,
    (git_override_entries_uniform "https://example.com/node" "dev").2 _ (by decide)⟩

/-- C6: with no selection the rendered override block is the empty string,
and a composed manifest is exactly its identity section plus its declaration
lines, with nothing appended after them. -/
theorem none_selection_emits_nothing :
    patchSection none = "" ∧
    ∀ (identity : String) (deps : List Dependency),
      composeManifest identity deps none = identity ++ String.join (deps.map depLine) := by
  refine ⟨rfl, ?_⟩
  intro identity deps
  simp only [composeManifest, patchSection, String.append_empty]

/-- C7: every input combination setting both the local workspace path and a
remote field reaches the catch-all arm and fails with the unreachable-arm
message; the resolver never yields an override selection for it. -/
theorem both_modes_set_fails :
    ∀ p u b : String,
      resolveOverrides (some p) (some u) (some b) = .error unreachableMessage ∧
      resolveOverrides (some p) (some u) none = .error unreachableMessage ∧
      resolveOverrides (some p) none (some b) = .error unreachableMessage :=
  fun _ _ _ => ⟨rfl, rfl, rfl⟩

/-- C8: when the destination root already exists, the run aborts with the
already-exists error; the error result carries no filesystem state, so no
directory is created and no file is written. -/
theorem existing_destination_aborts :
    ∀ (fs : FsState) (root : String) (sel : Option DimensionOverrides),
      pathExists fs root = true →
      run fs root sel = .error (": destination '" ++ root ++ "' already exists") := by
  intro fs root sel h
  simp only [run, h, if_true]

/-- Witness for C8 at an existing destination /tmp/foo. -/
theorem existing_destination_aborts_witness :
    pathExists ⟨["/tmp/foo"], []⟩ "/tmp/foo" = true ∧
      run ⟨["/tmp/foo"], []⟩ "/tmp/foo" none =
        .error (": destination '" ++ "/tmp/foo" ++ "' already exists") :=
  ⟨by decide, existing_destination_aborts ⟨["/tmp/foo"], []⟩ "/tmp/foo" none (by decide)⟩

/-- C9: rendering the override block and composing a manifest are
deterministic — two calls with equal selection, registry subset and identity
produce byte-identical text. -/
theorem compose_deterministic :
    ∀ (i₁ i₂ : String) (d₁ d₂ : List Dependency) (s₁ s₂ : Option DimensionOverrides),
      i₁ = i₂ → d₁ = d₂ → s₁ = s₂ →
      composeManifest i₁ d₁ s₁ = composeManifest i₂ d₂ s₂ ∧
        patchSection s₁ = patchSection s₂ := by
  intro i₁ i₂ d₁ d₂ s₁ s₂ h₁ h₂ h₃
  subst h₁; subst h₂; subst h₃
  exact ⟨rfl, rfl⟩

/-- Witness for C9 on the contract manifest with no override. -/
theorem compose_deterministic_witness :
    composeManifest contractIdentity contractDeps none =
        composeManifest contractIdentity contractDeps none ∧
      patchSection none = patchSection none :=
  compose_deterministic contractIdentity contractIdentity contractDeps contractDeps
    none none rfl rfl rfl

/-- C10: for selection LocalPath(p) the override block maps each dependency
to its fixed sub-path of p: contract to smart_contracts/contract,
engine-test-support to execution_engine_testing/test_support,
execution-engine to execution_engine, and types to types. -/
theorem local_override_fixed_subpaths :
    ∀ p : String,
      patchSection (some (.WorkspacePath p)) =
        patchHeader ++
        (renderLine ("dimension-contract", pathEntry (p ++ "/smart_contracts/contract")) ++
        (renderLine ("dimension-engine-test-support",
            pathEntry (p ++ "/execution_engine_testing/test_support")) ++
        (renderLine ("dimension-execution-engine", pathEntry (p ++ "/execution_engine")) ++
        renderLine ("dimension-types", pathEntry (p ++ "/types"))))) := by
  intro p
  rw [patchSection_eq_entries]
  simp only [patchEntries, List.map, String.join, List.foldl, String.empty_append,
    String.append_assoc]

end CargoDimension
